import Mathlib

/-!
# Sofabaton X1S custom card — shallow embedding of the card logic

This file embeds, in Lean, the state-reconciliation and capability-gating
logic of the Sofabaton remote Lovelace card (`SofabatonRemoteCard`), and
proves/refutes the frozen claims about it.

Modelling conventions for the JavaScript source:
* A JavaScript value that only ever flows into `Number(...)` is modelled by
  its `Number()` image, of type `JSNum` (`finite`/`nan`/`posInf`/`negInf`).
* `x ?? y` on a field becomes `Option.orElse`: `none` stands for
  `null`/`undefined`, `some v` for a present non-null value.
* JavaScript truthiness is made explicit at each use site
  (empty string and `0` are falsy).
* Strings use Lean `String`; the character-wise `toUpperCase`/`toLowerCase`
  and `trim` of JS are modelled by explicit char-map / drop functions.
* DOM writes (`style.setProperty`, class toggles, `select.value`) become
  explicit output values; service calls become a `ServiceCall` list.
-/

set_option autoImplicit false

namespace SofabatonCard

/-- The `Number()` image of a JavaScript value: a finite number (the card
only ever compares integral command/activity ids), `NaN`, or an infinity. -/
inductive JSNum where
  | finite (n : Int)
  | nan
  | posInf
  | negInf
  deriving Repr, DecidableEq

/-- `Number.isFinite` (used by the parser's filter): true only on finite. -/
def JSNum.isFinite : JSNum → Bool
  | .finite _ => true
  | _ => false

/-- `Number.isNaN` (used by `_rgbToCss`): true only on `NaN`. -/
def JSNum.isNaN : JSNum → Bool
  | .nan => true
  | _ => false

/-- JavaScript `===` on numbers: `NaN` is equal to nothing, infinities are
equal to themselves, finite numbers compare by value. -/
def JSNum.jsEq : JSNum → JSNum → Bool
  | .finite n, .finite m => n == m
  | .posInf, .posInf => true
  | .negInf, .negInf => true
  | _, _ => false

/-- `String(n)` for the numbers the card renders (`_rgbToCss`). -/
def JSNum.render : JSNum → String
  | .finite n => toString n
  | .nan => "NaN"
  | .posInf => "Infinity"
  | .negInf => "-Infinity"

/-! ## EnabledButtonsParser (`_enabledButtons`, part_000 lines 63–89) -/

/-- A structured entry of the raw `enabled_buttons` list.  Each field is the
`Number()` image of the JS field; `none` is `null`/`undefined` (which is
exactly what the `??` chains skip). -/
structure RecordEntry where
  command : Option JSNum
  command_id : Option JSNum
  button_id : Option JSNum
  idField : Option JSNum      -- `entry.id` (renamed: `id` clashes with `id`)
  button : Option JSNum
  activity_id : Option JSNum
  device : Option JSNum
  deriving Repr, DecidableEq

/-- An element of the raw `enabled_buttons` array: either a structured
record, or any non-object value, abstracted by its `Number()` image. -/
inductive RawEntry where
  | scalar (v : JSNum)
  | record (r : RecordEntry)
  deriving Repr, DecidableEq

/-- `CapabilityEntry`: the canonical parsed form.  The `command` is the
`Number()` image before the finiteness filter; `activity_id` is `null` or
the `Number()` image of the first populated of `activity_id`/`device`. -/
structure CapabilityEntry where
  command : JSNum
  activity_id : Option JSNum
  deriving Repr, DecidableEq

/-- The `.map` step of `_enabledButtons`: alias resolution.
`Number(entry.command ?? entry.command_id ?? entry.button_id ?? entry.id ??
entry.button)` — `Number(undefined) = NaN` when every alias is absent —
and `entry.activity_id ?? entry.device ?? null`. -/
def parseEntry : RawEntry → CapabilityEntry
  | .scalar v => { command := v, activity_id := none }
  | .record r =>
    { command :=
        ((((r.command.orElse fun _ => r.command_id).orElse
            fun _ => r.button_id).orElse
            fun _ => r.idField).orElse
            fun _ => r.button).getD .nan
      activity_id := r.activity_id.orElse fun _ => r.device }

/-- `_enabledButtons` on an array payload: map then keep the entries whose
command id is a finite number. -/
def enabledButtons (raw : List RawEntry) : List CapabilityEntry :=
  (raw.map parseEntry).filter fun e => e.command.isFinite

/-- `this._enabledButtonsInvalid`, as set by `_enabledButtons` on an array
payload: raw list non-empty but nothing parsed. -/
def enabledButtonsInvalid (raw : List RawEntry) : Bool :=
  decide (raw.length > 0) && decide ((enabledButtons raw).length = 0)

/-- `_isEnabled(id)` (part_000 lines 91–96).  `id` is one of the integral
button ids, so `Number(id)` is `JSNum.finite id`. -/
def isEnabled (raw : List RawEntry) (id : Int) : Bool :=
  let enabled := enabledButtons raw
  if enabledButtonsInvalid raw then true
  else if enabled.length = 0 then true   -- fail-open
  else enabled.any fun e => e.command.jsEq (.finite id)

/-- `_commandTarget(id)` (part_000 lines 98–102): first matching entry. -/
def commandTarget (raw : List RawEntry) (id : Int) : Option CapabilityEntry :=
  (enabledButtons raw).find? fun e => e.command.jsEq (.finite id)

/-! ## Basic facts about the parser -/

theorem mem_enabledButtons_isFinite {raw : List RawEntry} {e : CapabilityEntry}
    (h : e ∈ enabledButtons raw) : e.command.isFinite = true := by
  unfold enabledButtons at h
  exact (List.mem_filter.mp h).2

theorem jsEq_finite_of_mem {raw : List RawEntry} {e : CapabilityEntry} {id : Int}
    (h : e ∈ enabledButtons raw) :
    e.command.jsEq (.finite id) = true ↔ e.command = .finite id := by
  have hfin := mem_enabledButtons_isFinite h
  cases hcmd : e.command with
  | finite n =>
      simp [JSNum.jsEq]
  | nan => rw [hcmd] at hfin; simp [JSNum.isFinite] at hfin
  | posInf => rw [hcmd] at hfin; simp [JSNum.isFinite] at hfin
  | negInf => rw [hcmd] at hfin; simp [JSNum.isFinite] at hfin

/-- `_isEnabled` is fail-open whenever the canonical parsed list is empty
(this covers both the malformed-flag branch and the empty-list branch). -/
theorem isEnabled_of_no_entries {raw : List RawEntry} (id : Int)
    (h : enabledButtons raw = []) : isEnabled raw id = true := by
  simp [isEnabled, h]

/-- A well-formed example payload: the two structured entries `{3}`, `{7}`
(command id given under the `command` field, nothing else populated). -/
def exEntry (n : Int) : RawEntry :=
  .record ⟨some (.finite n), none, none, none, none, none, none⟩

def exList37 : List RawEntry := [exEntry 3, exEntry 7]

/-- C1: `isEnabled` is fail-open on malformed and empty canonical lists and
otherwise matches on the parsed command ids; on the `{3},{7}` payload it
accepts 3 and rejects 5. -/
theorem C1_isEnabled_failOpen (raw : List RawEntry) (id : Int) :
    ((raw ≠ [] ∧ enabledButtons raw = []) → isEnabled raw id = true)
    ∧ (enabledButtons raw = [] → isEnabled raw id = true)
    ∧ (enabledButtons raw ≠ [] →
        (isEnabled raw id = true ↔
          ∃ e ∈ enabledButtons raw, e.command = .finite id))
    ∧ isEnabled exList37 3 = true ∧ isEnabled exList37 5 = false := by
  refine ⟨?_, ?_, ?_, by decide, by decide⟩
  · rintro ⟨_, hempty⟩
    exact isEnabled_of_no_entries id hempty
  · intro hempty
    exact isEnabled_of_no_entries id hempty
  · intro hne
    have hlen : (enabledButtons raw).length ≠ 0 := by
      simpa [List.length_eq_zero] using hne
    have hinv : enabledButtonsInvalid raw = false := by
      unfold enabledButtonsInvalid
      simp [hlen]
    unfold isEnabled
    rw [hinv]
    simp only [Bool.false_eq_true, if_false, if_neg hlen]
    rw [List.any_eq_true]
    constructor
    · rintro ⟨e, hmem, heq⟩
      exact ⟨e, hmem, (jsEq_finite_of_mem hmem).mp heq⟩
    · rintro ⟨e, hmem, heq⟩
      exact ⟨e, hmem, (jsEq_finite_of_mem hmem).mpr heq⟩

/-- Witness for C1: the fail-open branches and the match branch hold on a
concrete malformed payload and on the `{3},{7}` payload. -/
theorem C1_isEnabled_failOpen_witness :
    isEnabled [.record ⟨none, none, none, none, none, none, none⟩] 9 = true
    ∧ isEnabled exList37 3 = true ∧ isEnabled exList37 5 = false := by
  refine ⟨?_, (C1_isEnabled_failOpen exList37 3).2.2.2.1,
    (C1_isEnabled_failOpen exList37 5).2.2.2.2⟩
  exact (C1_isEnabled_failOpen _ 9).1 ⟨by decide, by decide⟩

/-! ## String helpers (JS `toUpperCase`/`toLowerCase`/`trim`/`includes`) -/

/-- JS `String.prototype.toUpperCase`, character-wise (sufficient for the
characters the card compares). -/
def jsToUpperCase (s : String) : String := String.mk (s.toList.map Char.toUpper)

/-- JS `String.prototype.toLowerCase`, character-wise. -/
def jsToLowerCase (s : String) : String := String.mk (s.toList.map Char.toLower)

/-- JS `String.prototype.trim`: strip whitespace from both ends. -/
def jsTrim (s : String) : String :=
  String.mk (((s.toList.dropWhile Char.isWhitespace).reverse.dropWhile
    Char.isWhitespace).reverse)

/-- Substring occurrence on character lists (JS `String.prototype.includes`). -/
def hasSubstr (pat : List Char) : List Char → Bool
  | [] => pat.isEmpty
  | c :: rest => pat.isPrefixOf (c :: rest) || hasSubstr pat rest

/-- JS `s.includes(pat)`. -/
def strIncludes (s pat : String) : Bool := hasSubstr pat.toList s.toList

/-! ## AttributeAdapter: hub variant and powered-off detection -/

/-- `_hubVersion()` (part_000 lines 55–57): `String(attrs.hub_version || "")
.toUpperCase()`; a missing/falsy attribute becomes the empty string. -/
def hubVersion (hub_version : Option String) : String :=
  jsToUpperCase (hub_version.getD "")

/-- `_isX2()` (part_000 lines 59–61). -/
def isX2 (hub_version : Option String) : Bool :=
  strIncludes (hubVersion hub_version) "X2"

/-- `POWERED_OFF_LABELS` (part_000 line 21). -/
def POWERED_OFF_LABELS : List String := ["powered off", "powered_off", "off"]

/-- `_isPoweredOffLabel(state)` (part_000 lines 125–128). -/
def isPoweredOffLabel (state : String) : Bool :=
  POWERED_OFF_LABELS.contains (jsToLowerCase (jsTrim state))

/-- `_currentActivityLabel(sel)` (part_000 lines 120–123):
`String(remote.attributes.current_activity ?? sel?.state ?? "")`. -/
def currentActivityLabel (current_activity : Option String)
    (selState : Option String) : String :=
  ((current_activity.orElse fun _ => selState).getD "")

/-! ## Substring lemmas for the hub-variant claim -/

theorem hasSubstr_iff (pat l : List Char) :
    hasSubstr pat l = true ↔ ∃ pre post, pre ++ pat ++ post = l := by
  induction l with
  | nil =>
      simp only [hasSubstr, List.isEmpty_iff]
      constructor
      · intro h
        exact ⟨[], [], by simp [h]⟩
      · rintro ⟨pre, post, h⟩
        rcases List.append_eq_nil.mp h with ⟨h1, h2⟩
        exact (List.append_eq_nil.mp h1).2
  | cons c rest ih =>
      simp only [hasSubstr, Bool.or_eq_true, ih]
      constructor
      · rintro (hpre | ⟨pre, post, h⟩)
        · rcases List.isPrefixOf_iff_prefix.mp hpre with ⟨post, h⟩
          exact ⟨[], post, by simpa using h⟩
        · exact ⟨c :: pre, post, by simp [h]⟩
      · rintro ⟨pre, post, h⟩
        cases pre with
        | nil =>
            left
            exact List.isPrefixOf_iff_prefix.mpr ⟨post, by simpa using h⟩
        | cons p ps =>
            right
            refine ⟨ps, post, ?_⟩
            have h' : p :: (ps ++ pat ++ post) = c :: rest := by
              simpa [List.append_assoc] using h
            have := List.cons_eq_cons.mp h'
            simpa [List.append_assoc] using this.2

theorem hasSubstr_map_iff (f : Char → Char) (pat l : List Char) :
    hasSubstr pat (l.map f) = true ↔
      ∃ q : List Char, (∃ pre post, pre ++ q ++ post = l) ∧ q.map f = pat := by
  rw [hasSubstr_iff]
  constructor
  · rintro ⟨pre, post, h⟩
    rw [List.append_assoc] at h
    rcases List.map_eq_append_iff.mp h.symm with ⟨l1, l23, hl, hpre, h23⟩
    rcases List.map_eq_append_iff.mp h23 with ⟨l2, l3, hl2, hq, hpost⟩
    refine ⟨l2, ⟨l1, l3, ?_⟩, hq⟩
    rw [hl, hl2]
    exact List.append_assoc l1 l2 l3
  · rintro ⟨q, ⟨pre, post, h⟩, hq⟩
    exact ⟨pre.map f, post.map f, by
      rw [← hq, ← List.map_append, ← List.map_append, h]⟩

/-- The spec-side notion of "contains `X2` as a case-insensitive substring":
some two-character stretch of the string uppercases to `X2`. -/
def ContainsX2CI (s : String) : Prop :=
  ∃ q : List Char, (∃ pre post, pre ++ q ++ post = s.toList)
    ∧ q.map Char.toUpper = ['X', '2']

/-! ## C7: hub-variant gating -/

/-- The X2-only button ids (`_x2OnlyIds`, part_000 line 423: C, B, A, EXIT,
DVR, PLAY, GUIDE). -/
def x2OnlyIds : List Int := [151, 152, 153, 154, 155, 156, 157]

/-- Per-key visibility, as applied by the `_update` key loop (part_000 lines
817–823): an X2-only key is shown iff `_isX2()`; a non-restricted key is
never touched by the loop and stays visible. -/
def keyVisible (hub_version : Option String) (id : Int) : Bool :=
  if x2OnlyIds.contains id then isX2 hub_version else true

theorem isX2_iff_containsX2CI (hub_version : Option String) :
    isX2 hub_version = true ↔ ContainsX2CI (hub_version.getD "") := by
  unfold isX2 hubVersion jsToUpperCase strIncludes ContainsX2CI
  have htl : (String.mk ((hub_version.getD "").toList.map Char.toUpper)).toList
      = (hub_version.getD "").toList.map Char.toUpper := rfl
  have hx2 : ("X2" : String).toList = ['X', '2'] := rfl
  rw [htl, hasSubstr_map_iff, hx2]

/-! ## LoadIndicatorController -/

/-- The loading-related instance fields.  Times are epoch milliseconds.
`none` models an unset (`undefined`) field. -/
structure LoadState where
  activityLoadActive : Bool
  activityLoadTarget : Option String
  activityLoadStartedAt : Option Int
  commandPulseUntil : Option Int
  deriving Repr, DecidableEq

def LoadState.initial : LoadState :=
  { activityLoadActive := false, activityLoadTarget := none,
    activityLoadStartedAt := none, commandPulseUntil := none }

/-- `_isLoadingActive()` (part_000 lines 130–134).  The pulse term is
`this._commandPulseUntil && Date.now() < this._commandPulseUntil`: the
deadline must be truthy (set and non-zero) and in the future. -/
def isLoadingActive (st : LoadState) (now : Int) : Bool :=
  let isActivityLoading := st.activityLoadActive
  let isPulse :=
    match st.commandPulseUntil with
    | some t => decide (t ≠ 0) && decide (now < t)
    | none => false
  isActivityLoading || isPulse

/-- `_loadState()` of the historical variant (part_001 lines 100–102):
`String(attrs.load_state || "").toLowerCase()`. -/
def loadStateStr (load_state : Option String) : String :=
  jsToLowerCase (load_state.getD "")

/-- `_isLoadingActive()` of the historical variant (part_001 lines 114–119),
which ORs in the raw `load_state` attribute. -/
def isLoadingActiveV1 (load_state : Option String) (st : LoadState)
    (now : Int) : Bool :=
  let isLoading := loadStateStr load_state == "loading"
  let isActivityLoading := st.activityLoadActive
  let isPulse :=
    match st.commandPulseUntil with
    | some t => decide (t ≠ 0) && decide (now < t)
    | none => false
  isLoading || isActivityLoading || isPulse

/-- `_triggerCommandPulse()` (part_000 lines 144–151): a button press gives
a minimum 1000 ms visible pulse; the scheduled callback only re-evaluates
the indicator, so only the deadline matters to the state. -/
def triggerCommandPulse (st : LoadState) (now : Int) : LoadState :=
  { st with commandPulseUntil := some (now + 1000) }

/-- `_startActivityLoading(target)` (part_000 lines 153–165). -/
def startActivityLoading (st : LoadState) (target : Option String)
    (now : Int) : LoadState :=
  { st with activityLoadTarget := some (target.getD "")
            activityLoadActive := true
            activityLoadStartedAt := some now }

/-- The 60 000 ms safety-clear callback scheduled by `_startActivityLoading`. -/
def activityLoadTimeoutFires (st : LoadState) : LoadState :=
  if st.activityLoadActive then { st with activityLoadActive := false } else st

/-- `_stopActivityLoading()` (part_000 lines 167–174): idempotent. -/
def stopActivityLoading (st : LoadState) : LoadState :=
  if !st.activityLoadActive then st
  else { st with activityLoadActive := false, activityLoadTarget := none,
                 activityLoadStartedAt := none }

/-! ## Service calls and the ActivityCoordinator -/

/-- Outbound service calls (`remote.send_command`, `select.select_option`). -/
inductive ServiceCall where
  | selectOption (entityId : String) (option : String)
  | sendCmd (entityId : String) (command : Int) (device : JSNum)
  deriving Repr, DecidableEq

/-- The card's mutable instance state relevant to the coordinator.
`displayedValue` mirrors the `ha-select` control's `.value` property
(`none` = never assigned). -/
structure CardState where
  pendingActivity : Option String
  pendingActivityAt : Option Int
  suppressActivityChange : Bool
  load : LoadState
  displayedValue : Option String
  deriving Repr, DecidableEq

def CardState.initial : CardState :=
  { pendingActivity := none, pendingActivityAt := none,
    suppressActivityChange := false, load := LoadState.initial,
    displayedValue := none }

/-- `_activitySelectEntityId()` (part_000 lines 111–113): the attribute with
`|| null` applied, so a falsy (empty) id becomes `none`. -/
def normSelId (activity_select_entity_id : Option String) : Option String :=
  match activity_select_entity_id with
  | some s => if s = "" then none else some s
  | none => none

/-- `_setActivity(option)` (part_000 lines 194–207).  `selId` is the
normalized selector entity id, `selState` the selector's current state
(`none` when the selector entity is missing).  Returns the new card state
and the emitted service calls. -/
def setActivity (st : CardState) (selId : Option String)
    (selState : Option String) (option : Option String) (now : Int) :
    CardState × List ServiceCall :=
  match selId, option with
  | some sid, some opt =>
    if selState == some opt then (st, [])
    else
      ({ st with pendingActivity := some opt
                 pendingActivityAt := some now
                 load := startActivityLoading st.load (some opt) now },
       [.selectOption sid opt])
  | _, _ => (st, [])

/-- `handleActivitySelect` (part_000 lines 602–611): the selector-change
listener.  `value` is the value resolved from the event (`none` when every
fallback is `null`/`undefined`).  The suppression guard makes the handler a
no-op during the coordinator's own write-back. -/
def handleActivitySelect (st : CardState) (selId : Option String)
    (selState : Option String) (value : Option String) (now : Int) :
    CardState × List ServiceCall :=
  if st.suppressActivityChange then (st, [])
  else
    match value with
    | some v => setActivity st selId selState (some v) now
    | none => (st, [])

/-! ## `_sendCommand` (part_000 lines 181–192) -/

/-- `_currentActivityId()` (part_000 lines 104–109): `none` when the
attribute is `null`/absent, otherwise its `Number()` image. -/
def currentActivityId (current_activity_id : Option JSNum) : Option JSNum :=
  current_activity_id

/-- `_sendCommand(commandId)` for a card with a configured entity: route to
the matching capability entry's `activity_id` when it is non-null, else the
current activity id; send nothing when both are null. -/
def sendCommand (entity : String) (raw : List RawEntry)
    (current_activity_id : Option JSNum) (commandId : Int) :
    List ServiceCall :=
  let target := commandTarget raw commandId
  let device := (target.bind fun t => t.activity_id).orElse
    fun _ => currentActivityId current_activity_id
  match device with
  | none => []
  | some d => [.sendCmd entity commandId d]

/-! ## `_update` (part_000 lines 720–836) -/

/-- The `remote` entity's attribute bag, as read by the helpers. -/
structure RemoteAttrs where
  hub_version : Option String
  current_activity : Option String
  current_activity_id : Option JSNum
  /-- `enabled_buttons`: `none` models an absent or non-array value
  (for which `_enabledButtons` returns `[]`). -/
  enabled_buttons : Option (List RawEntry)
  activity_select_entity_id : Option String
  deriving Repr, DecidableEq

/-- The companion selector entity's snapshot. -/
structure SelSnapshot where
  options : List String
  state : String
  deriving Repr, DecidableEq

/-- `_isEnabled` as evaluated during a tick.  When `enabled_buttons` is not
an array, `_enabledButtons` returns `[]` before touching the invalid flag;
`_isEnabled` then returns true on the empty list whether or not a stale
flag is set, so the result is flag-independent. -/
def isEnabledAttr (attrs : RemoteAttrs) (id : Int) : Bool :=
  match attrs.enabled_buttons with
  | some l => isEnabled l id
  | none => true

/-- The per-tick outputs of `_update` that the renderer consumes. -/
structure UpdateOut where
  isPoweredOff : Bool
  selectDisabled : Bool
  warnShown : Bool
  /-- visibility applied by the key loop (X2-only keys toggle with the hub
  variant, other keys are left visible). -/
  buttonVisible : Int → Bool
  /-- `enabled = !isPoweredOff && this._isEnabled(k.id)` per key. -/
  buttonEnabled : Int → Bool

/-- One reconciliation pass (`_update`), with the selector-change events the
`ha-select` control may fire synchronously while its `.value` is assigned
(the window between `_suppressActivityChange = true` and `= false`)
threaded through `handleActivitySelect`.  Returns the new card state, the
render outputs and the service calls emitted by those events. -/
def updateTickEvents (st : CardState) (attrs : RemoteAttrs)
    (sel : Option SelSnapshot) (now : Int)
    (events : List (Option String)) :
    CardState × UpdateOut × List ServiceCall :=
  let x2 := isX2 attrs.hub_version
  let pendingActivity := st.pendingActivity
  let pendingAge : Option Int :=
    match st.pendingActivityAt with
    | some t => if t ≠ 0 then some (now - t) else none  -- `t` must be truthy
    | none => none
  let pendingExpired :=
    match pendingAge with
    | some a => decide (a > 15000)
    | none => false
  let selId := normSelId attrs.activity_select_entity_id
  match selId, sel with
  | some sid, some s =>
    let current := s.state
    let isPoweredOff := isPoweredOffLabel current
    let clearPending :=
      match pendingActivity with
      | some p => decide (p ≠ "") && (pendingExpired || current == p)
      | none => false
    let st1 :=
      if clearPending then
        { st with pendingActivity := none, pendingActivityAt := none }
      else st
    -- value sync, guarded against feedback ("Prevent loops while syncing UI")
    let stGuard := { st1 with suppressActivityChange := true }
    let displayed :=
      match pendingActivity with
      | some p => if decide (p ≠ "") && !pendingExpired && decide (p ≠ current)
          then p else current
      | none => current
    let synced :=
      events.foldl
        (fun acc v =>
          let r := handleActivitySelect acc.1 (some sid) (some s.state) v now
          (r.1, acc.2 ++ r.2))
        ({ stGuard with displayedValue := some displayed }, [])
    let st2 := { synced.1 with suppressActivityChange := false }
    -- auto-stop of the activity-loading indicator
    let currentActivity := currentActivityLabel attrs.current_activity (some s.state)
    let autoStop :=
      st2.load.activityLoadActive
      && (match st2.load.activityLoadTarget with
          | some t => decide (t ≠ "")
          | none => false)
      && decide (currentActivity ≠ "")
      && (match st2.load.activityLoadTarget with
          | some t => currentActivity == t
          | none => false)
    let st3 := if autoStop then { st2 with load := stopActivityLoading st2.load } else st2
    (st3,
     { isPoweredOff := isPoweredOff
       selectDisabled := false
       warnShown := false
       buttonVisible := fun id => if x2OnlyIds.contains id then x2 else true
       buttonEnabled := fun id => !isPoweredOff && isEnabledAttr attrs id },
     synced.2)
  | _, _ =>
    -- selector entity missing: disable the control, no powered-off state
    let st1 := { st with load := stopActivityLoading st.load }
    (st1,
     { isPoweredOff := false
       selectDisabled := true
       warnShown := true
       buttonVisible := fun id => if x2OnlyIds.contains id then x2 else true
       buttonEnabled := fun id => !false && isEnabledAttr attrs id },
     [])

/-- One reconciliation pass with no interleaved selector events. -/
def updateTick (st : CardState) (attrs : RemoteAttrs)
    (sel : Option SelSnapshot) (now : Int) : CardState × UpdateOut :=
  let r := updateTickEvents st attrs sel now []
  (r.1, r.2.1)

/-! ## Reachable shape of the pending fields

`_setActivity` sets `_pendingActivity`/`_pendingActivityAt` together (to a
user-chosen option string and `Date.now()`), and `_update` clears them
together; `Date.now()` is positive.  The claims about `Pending(v, t)`
presuppose such a record. -/
def WfPending (st : CardState) : Prop :=
  (st.pendingActivity = none ∧ st.pendingActivityAt = none)
  ∨ (∃ v t, st.pendingActivity = some v ∧ v ≠ ""
      ∧ st.pendingActivityAt = some t ∧ 0 < t)

/-- C3: with the selector present, a pending record `Pending(v, t)` is
cleared by the tick exactly when the confirmed selector value equals `v` or
more than 15 000 ms have elapsed; otherwise it survives unchanged.  (In
particular it is still pending on a tick at `t+15000` and cleared on the
first tick after.) -/
theorem C3_pending_lifetime (st : CardState) (attrs : RemoteAttrs)
    (s : SelSnapshot) (now : Int) (v : String) (t : Int) (sid : String)
    (hsel : normSelId attrs.activity_select_entity_id = some sid)
    (hv : st.pendingActivity = some v) (hv' : v ≠ "")
    (ht : st.pendingActivityAt = some t) (ht' : 0 < t) :
    ((updateTick st attrs (some s) now).1.pendingActivity = none
        ∧ (updateTick st attrs (some s) now).1.pendingActivityAt = none)
      ↔ (s.state = v ∨ now - t > 15000) := by
  have htne : t ≠ 0 := by omega
  unfold updateTick updateTickEvents
  rw [hsel, hv, ht]
  simp only [if_pos htne, List.foldl_nil]
  by_cases hexp : now - t > 15000
  · simp [hexp, hv', stopActivityLoading,
      apply_ite CardState.pendingActivity, apply_ite CardState.pendingActivityAt]
  · by_cases hcur : s.state = v
    · simp [hexp, hcur, hv', stopActivityLoading,
        apply_ite CardState.pendingActivity, apply_ite CardState.pendingActivityAt]
    · have hbeq : (s.state == v) = false := by simpa using hcur
      simp [hexp, hbeq, hcur, hv', hv, ht, stopActivityLoading,
        apply_ite CardState.pendingActivity, apply_ite CardState.pendingActivityAt]

/-- Card state with `Pending("Movie", 1000)`. -/
def c3St : CardState :=
  { pendingActivity := some "Movie", pendingActivityAt := some 1000,
    suppressActivityChange := false, load := LoadState.initial,
    displayedValue := none }

/-- Attribute bag whose selector entity is present, nothing else set. -/
def c3Attrs : RemoteAttrs :=
  { hub_version := none, current_activity := none, current_activity_id := none,
    enabled_buttons := none, activity_select_entity_id := some "select.sb" }

/-- Selector confirming `"TV"` (never the requested `"Movie"`). -/
def c3Sel : SelSnapshot := { options := ["TV", "Movie"], state := "TV" }

/-- Selector confirming `"Movie"`. -/
def c3SelMovie : SelSnapshot := { options := ["TV", "Movie"], state := "Movie" }

/-- Witness for C3, at the boundary instants of the spec's scenario: with
`Pending("Movie", 1000)` and no confirmation, the record survives a tick at
`t+15000` and is cleared by a tick at `t+15001`. -/
theorem C3_pending_lifetime_witness :
    ¬ ((updateTick c3St c3Attrs (some c3Sel) 16000).1.pendingActivity = none
        ∧ (updateTick c3St c3Attrs (some c3Sel) 16000).1.pendingActivityAt = none)
    ∧ ((updateTick c3St c3Attrs (some c3Sel) 16001).1.pendingActivity = none
        ∧ (updateTick c3St c3Attrs (some c3Sel) 16001).1.pendingActivityAt = none) := by
  constructor
  · intro h
    have := (C3_pending_lifetime c3St c3Attrs c3Sel 16000 "Movie" 1000
      "select.sb" rfl rfl (by decide) rfl (by decide)).mp h
    revert this
    decide
  · exact (C3_pending_lifetime c3St c3Attrs c3Sel 16001 "Movie" 1000
      "select.sb" rfl rfl (by decide) rfl (by decide)).mpr (by decide)

/-- The optimistic-UI display contract of the spec: while a non-expired
pending request differs from the confirmed value, show the request,
otherwise show the confirmed value. -/
def optimisticDisplay (pending : Option String) (pendingAt : Option Int)
    (current : String) (now : Int) : String :=
  match pending, pendingAt with
  | some v, some t => if now - t ≤ 15000 ∧ v ≠ current then v else current
  | _, _ => current

/-- C4: with the selector present, the value written to the selector
control by the tick is exactly the optimistic-display contract. -/
theorem C4_displayed_value (st : CardState) (attrs : RemoteAttrs)
    (s : SelSnapshot) (now : Int) (sid : String)
    (hsel : normSelId attrs.activity_select_entity_id = some sid)
    (hwf : WfPending st) :
    (updateTick st attrs (some s) now).1.displayedValue =
      some (optimisticDisplay st.pendingActivity st.pendingActivityAt
        s.state now) := by
  unfold updateTick updateTickEvents optimisticDisplay
  rw [hsel]
  rcases hwf with ⟨hp, ht⟩ | ⟨v, t, hp, hv, ht, ht'⟩
  · simp [hp, ht, stopActivityLoading, apply_ite CardState.displayedValue]
  · have htne : t ≠ 0 := by omega
    rw [hp, ht]
    simp only [if_pos htne, List.foldl_nil]
    by_cases hexp : now - t > 15000
    · have hgt : ¬ (now - t ≤ 15000) := by omega
      simp [hexp, hgt, stopActivityLoading, apply_ite CardState.displayedValue]
    · have hle : now - t ≤ 15000 := by omega
      by_cases hcur : v = s.state
      · simp [hexp, hcur, stopActivityLoading,
          apply_ite CardState.displayedValue]
      · simp [hexp, hle, hcur, hv, stopActivityLoading,
          apply_ite CardState.displayedValue]

/-- Witness for C4: the spec's scenario — `Pending("Movie", t0)` confirmed
as `"Movie"` 2000 ms later displays `"Movie"`; unconfirmed it still
displays `"Movie"` while fresh. -/
theorem C4_displayed_value_witness :
    (updateTick c3St c3Attrs (some c3Sel) 3000).1.displayedValue = some "Movie"
    ∧ (updateTick c3St c3Attrs (some c3SelMovie) 3000).1.displayedValue
        = some "Movie" := by
  have h1 := C4_displayed_value c3St c3Attrs c3Sel 3000 "select.sb" rfl
    (Or.inr ⟨"Movie", 1000, rfl, by decide, rfl, by decide⟩)
  have h2 := C4_displayed_value c3St c3Attrs c3SelMovie 3000 "select.sb" rfl
    (Or.inr ⟨"Movie", 1000, rfl, by decide, rfl, by decide⟩)
  refine ⟨?_, ?_⟩
  · rw [h1]; decide
  · rw [h2]; decide

/-- If the guard is up, every event is absorbed without touching the state
or emitting a call. -/
theorem foldl_handleActivitySelect_suppressed (sid state : String) (now : Int)
    (events : List (Option String)) (acc : CardState × List ServiceCall)
    (h : acc.1.suppressActivityChange = true) :
    events.foldl
      (fun acc v =>
        let r := handleActivitySelect acc.1 (some sid) (some state) v now
        (r.1, acc.2 ++ r.2))
      acc = acc := by
  induction events generalizing acc with
  | nil => rfl
  | cons e rest ih =>
      simp only [List.foldl_cons, handleActivitySelect, h, if_pos,
        List.append_nil]
      exact ih acc h

/-- C5: the coordinator's own value write-back never feeds back.  Whatever
selector-change events the control delivers during the guarded sync window
of a tick, no select-option call is emitted and the resulting state and
outputs are those of the event-free tick — in particular no
`PendingActivity` is created. -/
theorem C5_suppression_guard (st : CardState) (attrs : RemoteAttrs)
    (sel : Option SelSnapshot) (now : Int) (events : List (Option String)) :
    updateTickEvents st attrs sel now events =
      ((updateTick st attrs sel now).1, (updateTick st attrs sel now).2, []) := by
  unfold updateTick updateTickEvents
  cases hsel : normSelId attrs.activity_select_entity_id with
  | none => rfl
  | some sid =>
      cases sel with
      | none => rfl
      | some s =>
          simp only [List.foldl_nil]
          rw [foldl_handleActivitySelect_suppressed _ _ _ _ _ rfl]

/-- C2 (as stated) is false: the code derives `isPoweredOff` from the
selector's raw state only, not from the confirmed activity label.  Here the
confirmed label is `"off"` (powered-off by `_isPoweredOffLabel`) while the
selector reads `"Watching TV"`, yet every button comes out enabled. -/
def c2Attrs : RemoteAttrs :=
  { hub_version := none, current_activity := some "off",
    current_activity_id := none, enabled_buttons := none,
    activity_select_entity_id := some "select.sofabaton_activity" }

def c2Sel : SelSnapshot :=
  { options := ["Watching TV", "Powered Off"], state := "Watching TV" }

theorem C2_counterexample :
    isPoweredOffLabel (currentActivityLabel c2Attrs.current_activity
      (some c2Sel.state)) = true
    ∧ (updateTick CardState.initial c2Attrs (some c2Sel) 1000000).2.buttonEnabled
        176 = true := by
  constructor
  · decide
  · decide

/-- C2 (amended): on every tick, a button's enabled flag equals
`!isPoweredOff && _isEnabled(id)`, where `isPoweredOff` is the powered-off
classification of the selector entity's raw state — and `false` whenever
the selector entity is absent; the confirmed activity label plays no part. -/
theorem C2_button_enabled (st : CardState) (attrs : RemoteAttrs)
    (sel : Option SelSnapshot) (now : Int) (id : Int) :
    (updateTick st attrs sel now).2.buttonEnabled id =
      (!(match normSelId attrs.activity_select_entity_id, sel with
          | some _, some s => isPoweredOffLabel s.state
          | _, _ => false)
        && isEnabledAttr attrs id) := by
  unfold updateTick updateTickEvents
  cases hsel : normSelId attrs.activity_select_entity_id with
  | none => rfl
  | some sid => cases sel with
    | none => rfl
    | some s => simp

/-- C7: per-tick visibility — an X2-only key is visible iff the hub-variant
string contains `"X2"` case-insensitively, any other key is always visible;
`"x1s-X2-rev3"` is second-generation, `"X1S"` is not. -/
theorem C7_variant_visibility (st : CardState) (attrs : RemoteAttrs)
    (sel : Option SelSnapshot) (now : Int) (id : Int) :
    (x2OnlyIds.contains id = true →
      ((updateTick st attrs sel now).2.buttonVisible id = true
        ↔ ContainsX2CI (attrs.hub_version.getD "")))
    ∧ (x2OnlyIds.contains id = false →
      (updateTick st attrs sel now).2.buttonVisible id = true)
    ∧ isX2 (some "x1s-X2-rev3") = true ∧ isX2 (some "X1S") = false := by
  have hvis : (updateTick st attrs sel now).2.buttonVisible id =
      (if x2OnlyIds.contains id then isX2 attrs.hub_version else true) := by
    unfold updateTick updateTickEvents
    cases hsel : normSelId attrs.activity_select_entity_id with
    | none => rfl
    | some sid => cases sel with
      | none => rfl
      | some s => simp
  refine ⟨?_, ?_, by decide, by decide⟩
  · intro hmem
    rw [hvis, if_pos hmem]
    exact isX2_iff_containsX2CI attrs.hub_version
  · intro hmem
    rw [hvis, hmem]
    simp

/-- Attribute bag carrying the hub-variant string `"x1s-X2-rev3"`. -/
def c7AttrsX2 : RemoteAttrs :=
  { hub_version := some "x1s-X2-rev3", current_activity := none,
    current_activity_id := none, enabled_buttons := none,
    activity_select_entity_id := none }

/-- Attribute bag carrying the hub-variant string `"X1S"`. -/
def c7AttrsX1S : RemoteAttrs :=
  { hub_version := some "X1S", current_activity := none,
    current_activity_id := none, enabled_buttons := none,
    activity_select_entity_id := none }

/-- Witness for C7, at the GUIDE key (id 157, X2-only) and the OK key
(id 176, unrestricted), on the spec's two hub-variant strings. -/
theorem C7_variant_visibility_witness :
    ContainsX2CI ("x1s-X2-rev3" : String)
    ∧ (updateTick CardState.initial c7AttrsX1S none 0).2.buttonVisible 176
        = true := by
  constructor
  · exact ((C7_variant_visibility CardState.initial c7AttrsX2 none 0 157).1
      (by decide)).mp (by decide)
  · exact (C7_variant_visibility CardState.initial c7AttrsX1S none 0 176).2.1
      (by decide)

/-! ## C6: the loading indicator -/

/-- C6: `_isLoadingActive()` is the OR of the activity-load flag and the
live command pulse (with the raw `load_state == "loading"` term OR'd in by
the historical variant); it is true at the instant `triggerCommandPulse`
fires and false from the pulse deadline on when nothing else is active.
The pulse deadline is always `Date.now() + 1000`, hence truthy for the
non-negative clock. -/
theorem C6_loading_indicator (st : LoadState) (ls : Option String) (now : Int)
    (hp : ∀ t, st.commandPulseUntil = some t → t ≠ 0) (hnow : 0 ≤ now) :
    (isLoadingActive st now
      = (st.activityLoadActive ||
          match st.commandPulseUntil with
          | some t => decide (now < t)
          | none => false))
    ∧ (isLoadingActiveV1 ls st now
      = ((loadStateStr ls == "loading") || st.activityLoadActive ||
          match st.commandPulseUntil with
          | some t => decide (now < t)
          | none => false))
    ∧ isLoadingActive (triggerCommandPulse st now) now = true
    ∧ (∀ now', now + 1000 ≤ now' → st.activityLoadActive = false →
        isLoadingActive (triggerCommandPulse st now) now' = false) := by
  have hpulse :
      (match st.commandPulseUntil with
        | some t => decide (t ≠ 0) && decide (now < t)
        | none => false)
      = (match st.commandPulseUntil with
        | some t => decide (now < t)
        | none => false) := by
    cases hcp : st.commandPulseUntil with
    | none => rfl
    | some t => simp [hp t hcp]
  refine ⟨?_, ?_, ?_, ?_⟩
  · unfold isLoadingActive
    rw [hpulse]
  · unfold isLoadingActiveV1
    rw [hpulse, Bool.or_assoc]
  · unfold isLoadingActive triggerCommandPulse
    have h1 : now + 1000 ≠ 0 := by omega
    have h2 : now < now + 1000 := by omega
    simp [h1, h2]
  · intro now' h1 h2
    unfold isLoadingActive triggerCommandPulse
    have h3 : ¬ (now' < now + 1000) := by omega
    simp [h2, h3]

/-- A load state with a live pulse deadline at 2000 and nothing else. -/
def c6St : LoadState :=
  { activityLoadActive := false, activityLoadTarget := none,
    activityLoadStartedAt := none, commandPulseUntil := some 2000 }

/-- Witness for C6: the state with pulse deadline 2000 checked at 1500,
re-triggered at 1500, and re-checked at the new deadline 2500. -/
theorem C6_loading_indicator_witness :
    isLoadingActive c6St 1500 = true
    ∧ isLoadingActive (triggerCommandPulse c6St 1500) 1500 = true
    ∧ isLoadingActive (triggerCommandPulse c6St 1500) 2500 = false := by
  have h := C6_loading_indicator c6St none 1500
    (fun t ht => by simp [c6St] at ht; omega) (by decide)
  refine ⟨?_, h.2.2.1, h.2.2.2 2500 (by decide) rfl⟩
  rw [h.1]
  decide

/-! ## C8 and C10: command routing -/

/-- C8: a pressed button's command goes to the activity id recorded in its
matching capability entry when that entry carries one, else to the current
confirmed activity id; with neither, no `send_command` call is made. -/
theorem C8_command_routing (entity : String) (raw : List RawEntry)
    (curId : Option JSNum) (cmd : Int) :
    (∀ e a, commandTarget raw cmd = some e → e.activity_id = some a →
        sendCommand entity raw curId cmd = [.sendCmd entity cmd a])
    ∧ ((commandTarget raw cmd).bind (fun e => e.activity_id) = none →
        ∀ c, currentActivityId curId = some c →
          sendCommand entity raw curId cmd = [.sendCmd entity cmd c])
    ∧ ((commandTarget raw cmd).bind (fun e => e.activity_id) = none →
        currentActivityId curId = none →
        sendCommand entity raw curId cmd = []) := by
  refine ⟨?_, ?_, ?_⟩
  · intro e a htgt hact
    unfold sendCommand
    rw [htgt]
    simp [hact]
  · intro hnone c hc
    unfold sendCommand
    simp [hnone, hc]
  · intro hnone hc
    unfold sendCommand
    simp only [currentActivityId] at hc
    simp [hnone, hc, currentActivityId]

/-- A payload with one entry: command 5 owned by activity 42. -/
def c8List : List RawEntry :=
  [.record ⟨some (.finite 5), none, none, none, none, some (.finite 42), none⟩]

/-- Witness for C8: with the `{command: 5, activity_id: 42}` payload, the
press of command 5 is routed to activity 42, ignoring the confirmed id 7. -/
theorem C8_command_routing_witness :
    sendCommand "remote.hub" c8List (some (.finite 7)) 5
      = [.sendCmd "remote.hub" 5 (.finite 42)] :=
  (C8_command_routing "remote.hub" c8List (some (.finite 7)) 5).1
    ⟨.finite 5, some (.finite 42)⟩ (.finite 42) (by decide) rfl

/-- C10: `_commandTarget` does not share `_isEnabled`'s fail-open policy.
On an empty-or-malformed payload (canonical list empty) every id is
enabled, yet no entry matches, so a press falls back to the confirmed
activity id and sends nothing when that is absent too. -/
theorem C10_target_not_failOpen (raw : List RawEntry) (id : Int)
    (curId : Option JSNum) (entity : String)
    (h : enabledButtons raw = []) :
    commandTarget raw id = none
    ∧ isEnabled raw id = true
    ∧ sendCommand entity raw curId id =
        (match currentActivityId curId with
          | some c => [.sendCmd entity id c]
          | none => []) := by
  have htgt : commandTarget raw id = none := by
    unfold commandTarget
    rw [h]
    rfl
  refine ⟨htgt, isEnabled_of_no_entries id h, ?_⟩
  unfold sendCommand
  rw [htgt]
  cases curId <;> rfl

/-- Witness for C10: the non-empty payload `[{broken}]` (no parsable
command id) enables everything, yet `commandTarget` finds nothing, and a
press with no confirmed activity id sends nothing. -/
theorem C10_target_not_failOpen_witness :
    commandTarget [RawEntry.scalar .nan] 176 = none
    ∧ isEnabled [RawEntry.scalar .nan] 176 = true
    ∧ sendCommand "remote.hub" [RawEntry.scalar .nan] none 176 = [] := by
  have h := C10_target_not_failOpen [RawEntry.scalar .nan] 176 none
    "remote.hub" (by decide)
  exact ⟨h.1, h.2.1, h.2.2⟩

/-! ## ThemeApplier (`_rgbToCss` lines 210–228, `_applyLocalTheme` lines
230–303 of part_000) -/

/-- The `background_override` config value as seen by `_rgbToCss`:
absent/null, an array (elements by their `Number()` image), an object with
`r`/`g`/`b` fields, or anything else. -/
inductive RgbInput where
  | absent
  | arr (elems : List JSNum)
  | obj (r g b : Option JSNum)
  | other
  deriving Repr, DecidableEq

/-- `_rgbToCss(rgb)`: `"rgb(r, g, b)"` for a well-formed triple, `""`
otherwise (an array shorter than 3 falls through the object branch and, not
carrying `r`/`g`/`b` fields, also yields `""`). -/
def rgbToCss : RgbInput → String
  | .arr es =>
    if 3 ≤ es.length then
      let r := es.getD 0 .nan
      let g := es.getD 1 .nan
      let b := es.getD 2 .nan
      if r.isNaN || g.isNaN || b.isNaN then ""
      else "rgb(" ++ r.render ++ ", " ++ g.render ++ ", " ++ b.render ++ ")"
    else ""
  | .obj (some r) (some g) (some b) =>
    if r.isNaN || g.isNaN || b.isNaN then ""
    else "rgb(" ++ r.render ++ ", " ++ g.render ++ ", " ++ b.render ++ ")"
  | _ => ""

/-- A theme-variable value: `null`, a string, or a number (other value
kinds are skipped by the loop exactly like `null`, and `??` also treats
only `null`/`undefined` as absent; the card's themes carry strings and
numbers). -/
inductive ThemeVal where
  | nullVal
  | str (s : String)
  | num (n : Int)
  deriving Repr, DecidableEq

/-- `String(v)` on a theme value (only reached for strings and numbers). -/
def ThemeVal.render : ThemeVal → String
  | .nullVal => "null"
  | .str s => s
  | .num n => toString n

/-- JS truthiness of a theme value (`"" `and `0` are falsy). -/
def ThemeVal.truthy : ThemeVal → Bool
  | .nullVal => false
  | .str s => decide (s ≠ "")
  | .num n => decide (n ≠ 0)

/-- A theme definition: its own entries in insertion order (without an
object-valued `modes` key), and the optional light/dark sub-maps. -/
structure ThemeDef where
  base : List (String × ThemeVal)
  modes : Option (List (String × ThemeVal) × List (String × ThemeVal))
  deriving Repr, DecidableEq

/-- `hass.themes`: the named theme definitions and the ambient dark flag. -/
structure ThemesConfig where
  themes : List (String × ThemeDef)
  darkMode : Bool
  deriving Repr, DecidableEq

/-- JS object spread `{...base, ...extra}` on string-keyed maps: base keys
keep their position but take `extra`'s value when overridden; new `extra`
keys are appended in order. -/
def mergeVars (base extra : List (String × ThemeVal)) :
    List (String × ThemeVal) :=
  (base.map fun p =>
    match extra.find? (fun q => q.fst == p.fst) with
    | some q => (p.fst, q.snd)
    | none => p)
  ++ extra.filter fun q => !(base.any fun p => p.fst == q.fst)

/-- `vars?.[k]` as consumed by a `??` chain: a present `null` value falls
through exactly like an absent key. -/
def lookupVar (vars : List (String × ThemeVal)) (k : String) : Option ThemeVal :=
  match vars.find? (fun p => p.fst == k) with
  | some (_, .nullVal) => none
  | some (_, v) => some v
  | none => none

/-- `k.startsWith("--") ? k : "--" + k`. -/
def cssVarName (k : String) : String :=
  if k.startsWith "--" then k else "--" ++ k

/-- A mutation of the card root's inline style. -/
inductive StyleOp where
  | removeProp (name : String)
  | setProp (name : String) (value : String)
  deriving Repr, DecidableEq

/-- The ThemeApplier's persistent bookkeeping
(`_appliedThemeKey`/`_appliedThemeVars`). -/
structure ThemeState where
  appliedThemeKey : Option String
  appliedThemeVars : List String
  deriving Repr, DecidableEq

def ThemeState.initial : ThemeState :=
  { appliedThemeKey := none, appliedThemeVars := [] }

/-- The stable key `` `${themeName || ""}||${bgOverrideCss}` ``. -/
def themeKey (themeName : Option String) (bgOverride : RgbInput) : String :=
  (themeName.getD "") ++ "||" ++ rgbToCss bgOverride

/-- The variable map `_applyLocalTheme` resolves for a truthy theme name:
the theme's entries, overlaid with the ambient mode's sub-map when the
theme has modes (and the `modes` key dropped). -/
def resolveThemeVars (cfg : ThemesConfig) (themeName : Option String) :
    Option (List (String × ThemeVal)) :=
  match themeName with
  | none => none
  | some name =>
    if name = "" then none
    else
      match (cfg.themes.find? fun p => p.fst == name) with
      | none => none
      | some (_, def_) =>
        match def_.modes with
        | some (light, dark) =>
          some ((mergeVars def_.base
            (if cfg.darkMode then dark else light)).filter
              fun p => p.fst ≠ "modes")
        | none => some def_.base

/-- The background-variable lookup chain of `_applyLocalTheme`. -/
def themeBackground (vars : Option (List (String × ThemeVal))) :
    Option ThemeVal :=
  match vars with
  | none => none
  | some vs =>
    (((lookupVar vs "ha-card-background").orElse
        fun _ => lookupVar vs "card-background-color").orElse
        fun _ => lookupVar vs "ha-card-background-color").orElse
        fun _ => lookupVar vs "primary-background-color"

/-- The five property names forced when a background resolves. -/
def bgPropNames : List String :=
  ["--ha-card-background", "--card-background-color",
   "--ha-card-background-color", "background", "background-color"]

/-- `_applyLocalTheme(themeName)`: returns the new bookkeeping state and
the inline-style mutations performed, in order.  If the computed key equals
the previously applied key the call returns immediately with no mutation. -/
def applyLocalTheme (st : ThemeState) (cfg : ThemesConfig)
    (themeName : Option String) (bgOverride : RgbInput) :
    ThemeState × List StyleOp :=
  let bgOverrideCss := rgbToCss bgOverride
  let appliedKey := themeKey themeName bgOverride
  if st.appliedThemeKey == some appliedKey then (st, [])
  else
    let removeOps := st.appliedThemeVars.map StyleOp.removeProp
    let vars := resolveThemeVars cfg themeName
    let varEntries := (vars.getD []).filter fun p => p.snd ≠ .nullVal
    let setVarOps := varEntries.map fun p =>
      StyleOp.setProp (cssVarName p.fst) p.snd.render
    let varNames := varEntries.map fun p => cssVarName p.fst
    let themeBg := themeBackground vars
    let finalBg : Option String :=
      if bgOverrideCss ≠ "" then some bgOverrideCss
      else match themeBg with
        | some v => if v.truthy then some v.render else none
        | none => none
    match finalBg with
    | some bg =>
      ({ appliedThemeKey := some appliedKey,
         appliedThemeVars := varNames ++ bgPropNames },
       removeOps ++ setVarOps ++ bgPropNames.map fun n => StyleOp.setProp n bg)
    | none =>
      ({ appliedThemeKey := some appliedKey, appliedThemeVars := varNames },
       removeOps ++ setVarOps
         ++ [StyleOp.removeProp "background",
             StyleOp.removeProp "background-color"])

/-- Every application leaves the key it computed in the bookkeeping. -/
theorem applyLocalTheme_key (st : ThemeState) (cfg : ThemesConfig)
    (themeName : Option String) (bgOverride : RgbInput) :
    (applyLocalTheme st cfg themeName bgOverride).1.appliedThemeKey
      = some (themeKey themeName bgOverride) := by
  unfold applyLocalTheme
  by_cases h : st.appliedThemeKey = some (themeKey themeName bgOverride)
  · simp [h]
  · have hbeq : (st.appliedThemeKey == some (themeKey themeName bgOverride))
        = false := by simpa using h
    simp only [hbeq, Bool.false_eq_true, if_false]
    cases hfb : (if rgbToCss bgOverride ≠ "" then some (rgbToCss bgOverride)
      else match themeBackground (resolveThemeVars cfg themeName) with
        | some v => if v.truthy then some v.render else none
        | none => none) with
    | none => simp [hfb]
    | some bg => simp [hfb]

/-- C9: the ThemeApplier is idempotent on an unchanged key — a second
application whose `(themeId, resolvedOverrideColor)` key equals the
previously applied one performs zero style mutations and leaves the
bookkeeping untouched. -/
theorem C9_theme_idempotent (st0 : ThemeState)
    (cfg1 cfg2 : ThemesConfig) (tn1 tn2 : Option String)
    (bg1 bg2 : RgbInput) (hkey : themeKey tn2 bg2 = themeKey tn1 bg1) :
    applyLocalTheme (applyLocalTheme st0 cfg1 tn1 bg1).1 cfg2 tn2 bg2
      = ((applyLocalTheme st0 cfg1 tn1 bg1).1, []) := by
  have hk := applyLocalTheme_key st0 cfg1 tn1 bg1
  set st1 := (applyLocalTheme st0 cfg1 tn1 bg1).1 with hst1
  unfold applyLocalTheme
  simp [hk, hkey]

/-- Witness for C9: the spec's scenario — theme `"dark"` with no override
applied twice in a row; the second application mutates nothing. -/
def c9DarkTheme : ThemeDef :=
  { base := [("primary-color", .str "#111")], modes := none }

def c9Cfg : ThemesConfig :=
  { themes := [("dark", c9DarkTheme)], darkMode := true }

theorem C9_theme_idempotent_witness :
    applyLocalTheme (applyLocalTheme ThemeState.initial c9Cfg (some "dark")
        .absent).1 c9Cfg (some "dark") .absent
      = ((applyLocalTheme ThemeState.initial c9Cfg (some "dark") .absent).1,
         []) :=
  C9_theme_idempotent ThemeState.initial c9Cfg c9Cfg (some "dark")
    (some "dark") .absent .absent rfl

end SofabatonCard
